import Mathlib

/-!
Shallow embedding of `ovgenpy/renderer.py`: the grid-layout engine
(`LayoutConfig`, `RendererLayout`) and the render state machine
(`MatplotlibRenderer`), with theorems checking the specification's claims
about them.

Machine integers are modelled by `Nat`/`Int` (the Python code only uses
arbitrary-precision ints), fallible code by `Except String`, and the
matplotlib backend objects (figure, canvas, axes, lines) by explicit
record states threaded through the operations.
-/

namespace Ovgenpy

/-- Decidable equality for `Except`, so that concrete runs of the fallible
operations can be checked by `decide`. -/
instance {ε α : Type} [DecidableEq ε] [DecidableEq α] : DecidableEq (Except ε α)
  | Except.ok x, Except.ok y => decidable_of_iff (x = y) (by simp)
  | Except.ok _, Except.error _ => Decidable.isFalse (by simp)
  | Except.error _, Except.ok _ => Decidable.isFalse (by simp)
  | Except.error e, Except.error f => decidable_of_iff (e = f) (by simp)

/-- Modelled from the spec: `ceildiv` from `ovgenpy.util` (module not under
`src/`); the spec uses `ceil(channelCount / axis)`. For a positive divisor
`d` this is the ceiling of `n / d`; post-init normalization guarantees the
divisor is positive wherever the renderer calls it. -/
def ceildiv (n d : Nat) : Nat := (n + d - 1) / d

/-- Modelled from the spec: `coalesce` from `ovgenpy.util` (module not under
`src/`); the spec's ColorResolver: the override when present, else the
global default. -/
def coalesce {α : Type} (override : Option α) (dflt : α) : α :=
  override.getD dflt

/-- Modelled from the spec: `RGB_DEPTH` from `ovgenpy.outputs` (module not
under `src/`); the frame-buffer contract is 3 bytes per pixel. -/
def RGB_DEPTH : Nat := 3

/-- `LayoutConfig`: `nrows`/`ncols` are `Optional[int]` (naturals here;
the axis counts are cardinalities), `orientation` defaults to `'h'`. -/
structure LayoutConfig where
  nrows : Option Nat := none
  ncols : Option Nat := none
  orientation : String := "h"
deriving DecidableEq, Repr

/-- Python truthiness of an `Optional[int]`: `None` and `0` are falsy. -/
def optTruthy (x : Option Nat) : Bool :=
  match x with
  | none => false
  | some n => n != 0

/-- `LayoutConfig.__post_init__`: coerce falsy (`0`) axis counts to `None`;
reject both axes set; default `ncols = 1` when neither is set. -/
def LayoutConfig.postInit (c : LayoutConfig) : Except String LayoutConfig :=
  let nrows := if optTruthy c.nrows then c.nrows else none
  let ncols := if optTruthy c.ncols then c.ncols else none
  if optTruthy nrows && optTruthy ncols then
    Except.error "cannot manually assign both nrows and ncols"
  else if !optTruthy nrows && !optTruthy ncols then
    Except.ok { c with nrows := nrows, ncols := some 1 }
  else
    Except.ok { c with nrows := nrows, ncols := ncols }

/-- `RendererLayout.VALID_ORIENTATIONS`. -/
def VALID_ORIENTATIONS : List String := ["h", "v"]

/-- The state built by `RendererLayout.__init__`. -/
structure RendererLayout where
  cfg : LayoutConfig
  nplots : Nat
  nrows : Nat
  ncols : Nat
  orientation : String
deriving DecidableEq, Repr

/-- `RendererLayout._calc_layout`: derive `(nrows, ncols)` from the config
and the plot count. The `None` branches are the code's own (dead after
normalization) guards; a zero `ncols` in the else branch would be a Python
`ZeroDivisionError` inside `ceildiv`, modelled explicitly since `Nat`
division is total. -/
def RendererLayout.calcLayout (cfg : LayoutConfig) (nplots : Nat) :
    Except String (Nat × Nat) :=
  if optTruthy cfg.nrows then
    match cfg.nrows with
    | none => Except.error "invalid cfg: rows_first is True and nrows is None"
    | some nrows => Except.ok (nrows, ceildiv nplots nrows)
  else
    match cfg.ncols with
    | none => Except.error "invalid cfg: rows_first is False and ncols is None"
    | some ncols =>
      if ncols = 0 then Except.error "ZeroDivisionError: integer division or modulo by zero"
      else Except.ok (ceildiv nplots ncols, ncols)

/-- `RendererLayout.__init__`: compute the grid, then validate the
orientation against `VALID_ORIENTATIONS`. -/
def RendererLayout.init (cfg : LayoutConfig) (nplots : Nat) :
    Except String RendererLayout :=
  match RendererLayout.calcLayout cfg nplots with
  | Except.error e => Except.error e
  | Except.ok (nrows, ncols) =>
    let orientation := cfg.orientation
    if VALID_ORIENTATIONS.contains orientation then
      Except.ok { cfg := cfg, nplots := nplots, nrows := nrows, ncols := ncols,
                  orientation := orientation }
    else
      Except.error ("Invalid orientation " ++ orientation ++ " not in ['h', 'v']")

/-- `LayoutConfig` creation (which runs `__post_init__`) followed by
`RendererLayout` construction, as performed when building a renderer. -/
def layoutConstruct (raw : LayoutConfig) (nplots : Nat) :
    Except String RendererLayout :=
  match raw.postInit with
  | Except.error e => Except.error e
  | Except.ok c => RendererLayout.init c nplots

/-- The sequence of `(row, col)` arguments `arrange` feeds to
`region_factory`: `np.unravel_index(np.arange(nrows * ncols),
(nrows, ncols))`, i.e. flat index `i` of the row-major grid maps to
`(i / ncols, i % ncols)`. -/
def RendererLayout.factoryCalls (L : RendererLayout) : List (Nat × Nat) :=
  (List.range (L.nrows * L.ncols)).map (fun i => (i / L.ncols, i % L.ncols))

/-- `RendererLayout.arrange`: call the factory on every cell of the full
grid in row-major order, reshape to `(nrows, ncols)`, transpose when the
orientation is vertical, flatten and truncate to `nplots`.

`regions2d = regions.reshape(nrows, ncols)` places `regions[r * ncols + c]`
at entry `(r, c)`; flat entry `j` of the transposed `(ncols, nrows)` array
therefore reads `regions2d[j % nrows][j / nrows] =
regions[(j % nrows) * ncols + j / nrows]`. -/
def RendererLayout.arrange {Region : Type} [Inhabited Region]
    (L : RendererLayout) (region_factory : Nat → Nat → Region) : List Region :=
  let regions := L.factoryCalls.map (fun rc => region_factory rc.1 rc.2)
  let flat :=
    if L.orientation = "v" then
      (List.range (L.nrows * L.ncols)).map
        (fun j => regions.getD ((j % L.nrows) * L.ncols + j / L.nrows) default)
    else
      regions
  flat.take L.nplots

/-- A `ChannelConfig` as seen by `set_colors`: only its `line_color` field
is read. -/
structure ChannelConfig (Color : Type) where
  line_color : Option Color
deriving DecidableEq, Repr

/-- `RendererConfig`: color and line-width values are abstract type
parameters (the code treats them as opaque matplotlib arguments). -/
structure RendererConfig (Color W : Type) where
  width : Nat
  height : Nat
  bg_color : Color
  init_line_color : Color
  line_width : Option W
  create_window : Bool
deriving DecidableEq, Repr

/-- Which matplotlib canvas class backs the figure; `matplotlib.use('agg')`
at import time makes it Agg. -/
inductive CanvasKind where
  | agg
  | other (backendName : String)
deriving DecidableEq, Repr

/-- The figure canvas: its pixel size and the renderer cache filled by
`draw()`. `FigureCanvasAgg.tostring_rgb` reads that cache, so before any
draw there is no buffer to extract. -/
structure Canvas where
  kind : CanvasKind
  width_height : Nat × Nat
  renderer_cache : Option (List UInt8)
deriving DecidableEq, Repr

/-- Figure state touched by the renderer: `set_facecolor` and the canvas
(`none` facecolor is the backend default, before `set_facecolor`). -/
structure FigureS (Color : Type) where
  facecolor : Option Color
  canvas : Canvas
deriving DecidableEq, Repr

/-- Axes state touched by the renderer: `set_xlim` / `set_ylim` (`none` is
the backend default, before the first frame sets them). -/
structure AxesS where
  xlim : Option (Int × Int)
  ylim : Option (Int × Int)
deriving DecidableEq, Repr

instance : Inhabited AxesS := ⟨⟨none, none⟩⟩

/-- A `Line2D` artifact as created by `ax.plot(data, color=..,
linewidth=..)`: implicit x-data `0..len(data)-1`, the plotted y-data, and
the styling fixed at creation. -/
structure Line2D (Color D W : Type) where
  xdata : List Nat
  ydata : List D
  color : Color
  linewidth : Option W
deriving DecidableEq, Repr

/-- The `MatplotlibRenderer` state: `lines = none` is the `Uninitialized`
lifecycle state (before the first `render_frame`), `lines = some _` is
`Initialized`. -/
structure MatplotlibRenderer (Color D W : Type) where
  cfg : RendererConfig Color W
  nplots : Nat
  layout : RendererLayout
  fig : FigureS Color
  axes : List AxesS
  lines : Option (List (Line2D Color D W))
  line_colors : List (Option Color)
deriving DecidableEq, Repr

/-- `MatplotlibRenderer.__init__` (including `_set_layout`): build the
layout (which may reject the config), materialize the Agg figure/canvas
via `plt.subplots` with the pixel size from `set_dpi`/`set_size_inches`,
and arrange the `nplots` axes handles. -/
def MatplotlibRenderer.init {Color D W : Type} (cfg : RendererConfig Color W)
    (lcfg : LayoutConfig) (nplots : Nat) :
    Except String (MatplotlibRenderer Color D W) :=
  match RendererLayout.init lcfg nplots with
  | Except.error e => Except.error e
  | Except.ok layout =>
    let axes : List AxesS :=
      layout.arrange (fun _ _ => { xlim := none, ylim := none })
    Except.ok {
      cfg := cfg
      nplots := nplots
      layout := layout
      fig := { facecolor := none,
               canvas := { kind := CanvasKind.agg,
                           width_height := (cfg.width, cfg.height),
                           renderer_cache := none } }
      axes := axes
      lines := none
      line_colors := List.replicate nplots none }

/-- `MatplotlibRenderer.set_colors`: arity check, lifecycle check, then
store the per-channel line colors. -/
def MatplotlibRenderer.set_colors {Color D W : Type}
    (r : MatplotlibRenderer Color D W) (channel_cfgs : List (ChannelConfig Color)) :
    Except String (MatplotlibRenderer Color D W) :=
  if channel_cfgs.length ≠ r.nplots then
    Except.error ("cannot assign " ++ toString channel_cfgs.length ++
      " colors to " ++ toString r.nplots ++ " plots")
  else if r.lines.isSome then
    Except.error "cannot set line colors after calling render_frame()"
  else
    Except.ok { r with line_colors := channel_cfgs.map (fun c => c.line_color) }

/-- `MatplotlibRenderer.render_frame`: arity check; on the first call set
the figure facecolor, per-channel axes limits, and plot one line per
channel (color coalesced from the stored override and
`cfg.init_line_color`); on later calls only `set_ydata` on the stored
lines. Finally `canvas.draw()` rasterizes the figure into the renderer
cache — the pixel content itself comes from the external backend, passed
here as the `pixels` argument. -/
def MatplotlibRenderer.render_frame {Color D W : Type}
    (r : MatplotlibRenderer Color D W) (datas : List (List D))
    (pixels : List UInt8) : Except String (MatplotlibRenderer Color D W) :=
  let ndata := datas.length
  if r.nplots ≠ ndata then
    Except.error ("incorrect data to plot: " ++ toString r.nplots ++
      " plots but " ++ toString ndata ++ " datas")
  else
    let r1 :=
      match r.lines with
      | none =>
        let fig := { r.fig with facecolor := some r.cfg.bg_color }
        let line_width := r.cfg.line_width
        let axes := List.zipWith
          (fun (_ax : AxesS) (data : List D) =>
            ({ xlim := some (0, (data.length : Int) - 1),
               ylim := some (-1, 1) } : AxesS))
          r.axes datas
        let lines := List.zipWith
          (fun (data : List D) (lc : Option Color) =>
            ({ xdata := List.range data.length, ydata := data,
               color := coalesce lc r.cfg.init_line_color,
               linewidth := line_width } : Line2D Color D W))
          datas r.line_colors
        { r with fig := fig, axes := axes, lines := some lines }
      | some lines =>
        { r with lines := some (List.zipWith
            (fun (line : Line2D Color D W) (data : List D) =>
              { line with ydata := data })
            lines datas) }
    Except.ok { r1 with fig := { r1.fig with canvas :=
      { r1.fig.canvas with renderer_cache := some pixels } } }

/-- `MatplotlibRenderer.get_frame`: reject a non-Agg canvas, assert the
canvas pixel size matches the config, extract the RGB buffer from the
renderer cache (an `AttributeError` surfaces from the backend when no draw
has happened yet), and assert its length is `width * height * RGB_DEPTH`. -/
def MatplotlibRenderer.get_frame {Color D W : Type}
    (r : MatplotlibRenderer Color D W) : Except String (List UInt8) :=
  let canvas := r.fig.canvas
  if canvas.kind ≠ CanvasKind.agg then
    Except.error "oh shit, cannot read data from canvas != FigureCanvasAgg"
  else
    let w := r.cfg.width
    let h := r.cfg.height
    if (w, h) ≠ canvas.width_height then
      Except.error "AssertionError: (w, h) == canvas.get_width_height()"
    else
      match canvas.renderer_cache with
      | none =>
        Except.error "AttributeError: tostring_rgb requires a prior draw"
      | some buffer_rgb =>
        if buffer_rgb.length ≠ w * h * RGB_DEPTH then
          Except.error "AssertionError: len(buffer_rgb) == w * h * RGB_DEPTH"
        else
          Except.ok buffer_rgb

/-! Concrete example states, used to instantiate the theorems below. -/

/-- Example renderer config: the spec scenario `width=300, height=100`
(colors as `Nat` handles: background 0, default line color 7). -/
def exCfg : RendererConfig Nat Nat :=
  { width := 300, height := 100, bg_color := 0, init_line_color := 7,
    line_width := none, create_window := false }

/-- Example layout config: `rowCount = 1`, horizontal. -/
def exLcfg : LayoutConfig := { nrows := some 1, ncols := none, orientation := "h" }

/-- The renderer state `MatplotlibRenderer.init exCfg exLcfg 3` builds:
3 plots in a 1×3 grid, uninitialized. -/
def exR0 : MatplotlibRenderer Nat Int Nat :=
  { cfg := exCfg, nplots := 3,
    layout := { cfg := exLcfg, nplots := 3, nrows := 1, ncols := 3, orientation := "h" },
    fig := { facecolor := none,
             canvas := { kind := CanvasKind.agg, width_height := (300, 100),
                         renderer_cache := none } },
    axes := [⟨none, none⟩, ⟨none, none⟩, ⟨none, none⟩],
    lines := none,
    line_colors := [none, none, none] }

/-- The spec scenario's first-frame channel data. -/
def exDatas : List (List Int) := [[0, 1, 0], [1, -1, 1], [0, 0, 0]]

/-- The renderer state after the first `render_frame exR0 exDatas []`:
facecolor set, axes bounded to x ∈ [0,2], y ∈ [-1,1], three artifacts. -/
def exR1 : MatplotlibRenderer Nat Int Nat :=
  { cfg := exCfg, nplots := 3,
    layout := { cfg := exLcfg, nplots := 3, nrows := 1, ncols := 3, orientation := "h" },
    fig := { facecolor := some 0,
             canvas := { kind := CanvasKind.agg, width_height := (300, 100),
                         renderer_cache := some [] } },
    axes := [⟨some (0, 2), some (-1, 1)⟩, ⟨some (0, 2), some (-1, 1)⟩,
             ⟨some (0, 2), some (-1, 1)⟩],
    lines := some [⟨[0, 1, 2], [0, 1, 0], 7, none⟩, ⟨[0, 1, 2], [1, -1, 1], 7, none⟩,
                   ⟨[0, 1, 2], [0, 0, 0], 7, none⟩],
    line_colors := [none, none, none] }

/-- Second-frame channel data of a different length than the first frame. -/
def exDatas2 : List (List Int) := [[5, 5], [6, 6], [7, 7]]

/-- The renderer state after `render_frame exR1 exDatas2 []`: only the
y-data of the artifacts changed; x-data, axes, colors, widths are frozen. -/
def exR2 : MatplotlibRenderer Nat Int Nat :=
  { cfg := exCfg, nplots := 3,
    layout := { cfg := exLcfg, nplots := 3, nrows := 1, ncols := 3, orientation := "h" },
    fig := { facecolor := some 0,
             canvas := { kind := CanvasKind.agg, width_height := (300, 100),
                         renderer_cache := some [] } },
    axes := [⟨some (0, 2), some (-1, 1)⟩, ⟨some (0, 2), some (-1, 1)⟩,
             ⟨some (0, 2), some (-1, 1)⟩],
    lines := some [⟨[0, 1, 2], [5, 5], 7, none⟩, ⟨[0, 1, 2], [6, 6], 7, none⟩,
                   ⟨[0, 1, 2], [7, 7], 7, none⟩],
    line_colors := [none, none, none] }

/-- Example config for the frame-buffer scenario: `width=64, height=32`. -/
def c8cfg : RendererConfig Nat Nat :=
  { width := 64, height := 32, bg_color := 0, init_line_color := 1,
    line_width := none, create_window := false }

/-- Single-plot layout config for the frame-buffer scenario. -/
def c8lcfg : LayoutConfig := { nrows := some 1, ncols := none, orientation := "h" }

/-- The renderer state `MatplotlibRenderer.init c8cfg c8lcfg 1` builds. -/
def c8r0 : MatplotlibRenderer Nat Int Nat :=
  { cfg := c8cfg, nplots := 1,
    layout := { cfg := c8lcfg, nplots := 1, nrows := 1, ncols := 1, orientation := "h" },
    fig := { facecolor := none,
             canvas := { kind := CanvasKind.agg, width_height := (64, 32),
                         renderer_cache := none } },
    axes := [⟨none, none⟩], lines := none, line_colors := [none] }

/-- A backend pixel buffer honoring the Agg contract for 64×32. -/
def c8px : List UInt8 := List.replicate (64 * 32 * 3) 0

/-- The renderer state after `render_frame c8r0 [[0, 1, 0]] c8px`. -/
def c8r1 : MatplotlibRenderer Nat Int Nat :=
  { cfg := c8cfg, nplots := 1,
    layout := { cfg := c8lcfg, nplots := 1, nrows := 1, ncols := 1, orientation := "h" },
    fig := { facecolor := some 0,
             canvas := { kind := CanvasKind.agg, width_height := (64, 32),
                         renderer_cache := some c8px } },
    axes := [⟨some (0, 2), some (-1, 1)⟩],
    lines := some [⟨[0, 1, 2], [0, 1, 0], 1, none⟩],
    line_colors := [none] }

/-! Helper lemmas. -/

theorem optTruthy_eq_true {x : Option Nat} :
    optTruthy x = true ↔ ∃ k, x = some k ∧ k ≠ 0 := by
  cases x with
  | none => simp [optTruthy]
  | some n => simp [optTruthy]

theorem le_ceildiv_mul (n k : Nat) (hk : k ≠ 0) : n ≤ ceildiv n k * k := by
  have hkpos : 0 < k := Nat.pos_of_ne_zero hk
  unfold ceildiv
  have h1 := Nat.div_add_mod (n + k - 1) k
  have h2 : (n + k - 1) % k < k := Nat.mod_lt _ hkpos
  rw [mul_comm]
  set q := (n + k - 1) / k with hq
  set K := k * q with hK
  omega

theorem ceildiv_pos (n k : Nat) (hn : n ≠ 0) (hk : k ≠ 0) : 0 < ceildiv n k := by
  have hkpos : 0 < k := Nat.pos_of_ne_zero hk
  unfold ceildiv
  show 1 ≤ (n + k - 1) / k
  rw [Nat.le_div_iff_mul_le hkpos]
  omega

theorem optTruthy_none : optTruthy none = false := rfl

theorem postInit_ok_cases {raw c : LayoutConfig} (h : raw.postInit = Except.ok c) :
    c.orientation = raw.orientation ∧
    ((∃ k, k ≠ 0 ∧ c.nrows = some k ∧ c.ncols = none) ∨
     (c.nrows = none ∧ ∃ m, m ≠ 0 ∧ c.ncols = some m)) := by
  unfold LayoutConfig.postInit at h
  cases hr : optTruthy raw.nrows <;> cases hc : optTruthy raw.ncols <;>
    simp [hr, hc, optTruthy_none] at h
  · subst h
    exact ⟨rfl, Or.inr ⟨rfl, 1, one_ne_zero, rfl⟩⟩
  · obtain ⟨m, hm, hm0⟩ := optTruthy_eq_true.mp hc
    subst h
    exact ⟨rfl, Or.inr ⟨rfl, m, hm0, hm⟩⟩
  · obtain ⟨k, hk, hk0⟩ := optTruthy_eq_true.mp hr
    subst h
    exact ⟨rfl, Or.inl ⟨k, hk0, hk, rfl⟩⟩

theorem calcLayout_of_nrows {c : LayoutConfig} {k : Nat} (hk : k ≠ 0)
    (h : c.nrows = some k) (n : Nat) :
    RendererLayout.calcLayout c n = Except.ok (k, ceildiv n k) := by
  unfold RendererLayout.calcLayout
  simp [h, optTruthy, hk]

theorem calcLayout_of_ncols {c : LayoutConfig} {m : Nat} (hm : m ≠ 0)
    (hr : c.nrows = none) (h : c.ncols = some m) (n : Nat) :
    RendererLayout.calcLayout c n = Except.ok (ceildiv n m, m) := by
  unfold RendererLayout.calcLayout
  simp [h, hr, optTruthy, hm]

theorem init_ok_of {c : LayoutConfig} {n nrows ncols : Nat}
    (hcalc : RendererLayout.calcLayout c n = Except.ok (nrows, ncols))
    (ho : c.orientation ∈ VALID_ORIENTATIONS) :
    RendererLayout.init c n =
      Except.ok ⟨c, n, nrows, ncols, c.orientation⟩ := by
  unfold RendererLayout.init
  rw [hcalc]
  simp only [List.elem_iff.mpr ho, if_true]

theorem factoryCalls_length (L : RendererLayout) :
    L.factoryCalls.length = L.nrows * L.ncols := by
  simp [RendererLayout.factoryCalls]

theorem factoryCalls_getD (L : RendererLayout) (i : Nat)
    (h : i < L.nrows * L.ncols) (d : Nat × Nat) :
    L.factoryCalls.getD i d = (i / L.ncols, i % L.ncols) := by
  unfold RendererLayout.factoryCalls
  rw [List.getD_eq_getElem _ _ (by simpa using h)]
  simp

theorem arrange_length {Region : Type} [Inhabited Region] (L : RendererLayout)
    (f : Nat → Nat → Region) :
    (L.arrange f).length = min L.nplots (L.nrows * L.ncols) := by
  unfold RendererLayout.arrange
  by_cases hv : L.orientation = "v" <;>
    simp [hv, RendererLayout.factoryCalls]

theorem arrange_getD_h {Region : Type} [Inhabited Region] (L : RendererLayout)
    (f : Nat → Nat → Region) (hv : L.orientation ≠ "v") (i : Nat)
    (hi : i < L.nplots) (hsp : i < L.nrows * L.ncols) (d : Region) :
    (L.arrange f).getD i d = f (i / L.ncols) (i % L.ncols) := by
  unfold RendererLayout.arrange RendererLayout.factoryCalls
  simp only [hv, if_false]
  rw [List.getD_eq_getElem _ _ (by simp; omega)]
  rw [List.getElem_take]
  simp

theorem arrange_getD_v {Region : Type} [Inhabited Region] (L : RendererLayout)
    (f : Nat → Nat → Region) (hv : L.orientation = "v")
    (hr : 0 < L.nrows) (hc : 0 < L.ncols) (i : Nat)
    (hi : i < L.nplots) (hn : L.nplots ≤ L.nrows * L.ncols) (d : Region) :
    (L.arrange f).getD i d = f (i % L.nrows) (i / L.nrows) := by
  have hsp : i < L.nrows * L.ncols := lt_of_lt_of_le hi hn
  have ha : i % L.nrows < L.nrows := Nat.mod_lt _ hr
  have hb : i / L.nrows < L.ncols := by
    rw [Nat.div_lt_iff_lt_mul hr]
    rw [Nat.mul_comm]
    exact hsp
  have hidx : (i % L.nrows) * L.ncols + i / L.nrows < L.nrows * L.ncols := by
    have h1 : (i % L.nrows) * L.ncols + L.ncols ≤ L.nrows * L.ncols := by
      calc (i % L.nrows) * L.ncols + L.ncols = ((i % L.nrows) + 1) * L.ncols := by ring
        _ ≤ L.nrows * L.ncols := Nat.mul_le_mul_right _ (Nat.succ_le_of_lt ha)
    exact lt_of_lt_of_le (Nat.add_lt_add_left hb _) h1
  have hdiv : ((i % L.nrows) * L.ncols + i / L.nrows) / L.ncols = i % L.nrows := by
    rw [Nat.mul_comm (i % L.nrows) L.ncols, Nat.mul_add_div hc, Nat.div_eq_of_lt hb,
      Nat.add_zero]
  have hmod : ((i % L.nrows) * L.ncols + i / L.nrows) % L.ncols = i / L.nrows := by
    rw [Nat.mul_comm (i % L.nrows) L.ncols, Nat.mul_add_mod, Nat.mod_eq_of_lt hb]
  unfold RendererLayout.arrange RendererLayout.factoryCalls
  simp only [hv, if_true, reduceIte]
  rw [List.getD_eq_getElem _ _ (by simp; omega)]
  rw [List.getElem_take]
  rw [List.getElem_map]
  rw [List.getElem_range]
  rw [List.getD_eq_getElem _ _ (by simpa using hidx)]
  simp [hdiv, hmod]

theorem optTruthy_some_zero : optTruthy (some 0) = false := rfl

theorem postInit_ok_of_not_both {raw : LayoutConfig}
    (h : ¬ (optTruthy raw.nrows = true ∧ optTruthy raw.ncols = true)) :
    ∃ c, raw.postInit = Except.ok c := by
  unfold LayoutConfig.postInit
  cases hr : optTruthy raw.nrows <;> cases hc : optTruthy raw.ncols <;>
    simp [hr, hc, optTruthy_none] at h ⊢

theorem postInit_error_of_both {raw : LayoutConfig}
    (hr : optTruthy raw.nrows = true) (hc : optTruthy raw.ncols = true) :
    raw.postInit = Except.error "cannot manually assign both nrows and ncols" := by
  unfold LayoutConfig.postInit
  simp [hr, hc]

theorem calcLayout_ok_of_normalized {raw c : LayoutConfig}
    (hpi : raw.postInit = Except.ok c) (n : Nat) :
    ∃ nr nc, RendererLayout.calcLayout c n = Except.ok (nr, nc) := by
  obtain ⟨-, hcases⟩ := postInit_ok_cases hpi
  rcases hcases with ⟨k, hk0, hrw, -⟩ | ⟨hrw, m, hm0, hcl⟩
  · exact ⟨k, ceildiv n k, calcLayout_of_nrows hk0 hrw n⟩
  · exact ⟨ceildiv n m, m, calcLayout_of_ncols hm0 hrw hcl n⟩

theorem layoutConstruct_eq_init {raw c : LayoutConfig}
    (hpi : raw.postInit = Except.ok c) (n : Nat) :
    layoutConstruct raw n = RendererLayout.init c n := by
  unfold layoutConstruct
  rw [hpi]

theorem layoutConstruct_eq_error {raw : LayoutConfig} {e : String}
    (hpi : raw.postInit = Except.error e) (n : Nat) :
    layoutConstruct raw n = Except.error e := by
  unfold layoutConstruct
  rw [hpi]

theorem init_error_of_orientation {c : LayoutConfig} {n nr nc : Nat}
    (hcalc : RendererLayout.calcLayout c n = Except.ok (nr, nc))
    (hb : VALID_ORIENTATIONS.contains c.orientation = false) :
    RendererLayout.init c n =
      Except.error ("Invalid orientation " ++ c.orientation ++ " not in ['h', 'v']") := by
  unfold RendererLayout.init
  rw [hcalc]
  simp [hb]
  intro hmem
  have hcb : VALID_ORIENTATIONS.contains c.orientation = true := List.elem_iff.mpr hmem
  rw [hb] at hcb
  exact Bool.noConfusion hcb

theorem getD_zipWith {α β γ : Type} (f : α → β → γ) (l1 : List α) (l2 : List β)
    (i : Nat) (d : γ) (d1 : α) (d2 : β) (h1 : i < l1.length) (h2 : i < l2.length) :
    (List.zipWith f l1 l2).getD i d = f (l1.getD i d1) (l2.getD i d2) := by
  rw [List.getD_eq_getElem _ _ (by simp [List.length_zipWith]; omega),
    List.getD_eq_getElem _ _ h1, List.getD_eq_getElem _ _ h2]
  exact List.getElem_zipWith

theorem render_frame_uninit_eq {Color D W : Type} (r : MatplotlibRenderer Color D W)
    (datas : List (List D)) (px : List UInt8)
    (hnone : r.lines = none) (hlen : datas.length = r.nplots) :
    r.render_frame datas px = Except.ok { r with
      fig := { facecolor := some r.cfg.bg_color,
               canvas := { r.fig.canvas with renderer_cache := some px } },
      axes := List.zipWith (fun (_ax : AxesS) (data : List D) =>
        ({ xlim := some (0, (data.length : Int) - 1),
           ylim := some (-1, 1) } : AxesS)) r.axes datas,
      lines := some (List.zipWith (fun (data : List D) (lc : Option Color) =>
        ({ xdata := List.range data.length, ydata := data,
           color := coalesce lc r.cfg.init_line_color,
           linewidth := r.cfg.line_width } : Line2D Color D W)) datas r.line_colors) } := by
  simp [MatplotlibRenderer.render_frame, hnone, hlen]

theorem render_frame_init_eq {Color D W : Type} (r : MatplotlibRenderer Color D W)
    (ls : List (Line2D Color D W)) (datas : List (List D)) (px : List UInt8)
    (hsome : r.lines = some ls) (hlen : datas.length = r.nplots) :
    r.render_frame datas px = Except.ok { r with
      fig := { r.fig with canvas := { r.fig.canvas with renderer_cache := some px } },
      lines := some (List.zipWith (fun (line : Line2D Color D W) (data : List D) =>
        { line with ydata := data }) ls datas) } := by
  simp [MatplotlibRenderer.render_frame, hsome, hlen]

theorem mplInit_ok_inv {Color D W : Type} {cfg : RendererConfig Color W}
    {lcfg : LayoutConfig} {n : Nat} {r0 : MatplotlibRenderer Color D W}
    (h : MatplotlibRenderer.init cfg lcfg n = Except.ok r0) :
    r0.cfg = cfg ∧
    r0.fig.canvas = { kind := CanvasKind.agg,
                      width_height := (cfg.width, cfg.height),
                      renderer_cache := none } ∧
    r0.lines = none := by
  unfold MatplotlibRenderer.init at h
  cases hL : RendererLayout.init lcfg n with
  | error e =>
    rw [hL] at h
    exact absurd h (by simp)
  | ok layout =>
    rw [hL] at h
    simp at h
    rw [← h]
    exact ⟨rfl, rfl, rfl⟩

theorem render_frame_ok_canvas {Color D W : Type}
    {r r1 : MatplotlibRenderer Color D W} {datas : List (List D)} {px : List UInt8}
    (h : r.render_frame datas px = Except.ok r1) :
    r1.fig.canvas = { r.fig.canvas with renderer_cache := some px } ∧
    r1.cfg = r.cfg := by
  unfold MatplotlibRenderer.render_frame at h
  by_cases hne : r.nplots = datas.length
  · cases hl : r.lines <;> simp [hl, hne] at h <;> rw [← h] <;> exact ⟨rfl, rfl⟩
  · simp [hne] at h

/-! Claim theorems. -/

/-- C1: for every channelCount and normalized layout spec, `_calc_layout`
returns `rows = nrows, cols = ceildiv(nplots, nrows)` when `nrows` is set,
else `cols = ncols, rows = ceildiv(nplots, ncols)`; in particular nplots=7
with nrows=3 gives the 3×3 grid. -/
theorem claim_C1 (raw c : LayoutConfig) (n : Nat)
    (hnorm : raw.postInit = Except.ok c) :
    (∀ k, c.nrows = some k →
      RendererLayout.calcLayout c n = Except.ok (k, ceildiv n k)) ∧
    (c.nrows = none → ∀ m, c.ncols = some m →
      RendererLayout.calcLayout c n = Except.ok (ceildiv n m, m)) ∧
    RendererLayout.calcLayout ⟨some 3, none, "h"⟩ 7 = Except.ok (3, 3) := by
  obtain ⟨-, hcases⟩ := postInit_ok_cases hnorm
  refine ⟨?_, ?_, by decide⟩
  · intro k hk
    rcases hcases with ⟨k', hk0, hrw, -⟩ | ⟨hrw, -⟩
    · rw [hk] at hrw
      injection hrw with hkk
      subst hkk
      exact calcLayout_of_nrows hk0 hk n
    · rw [hrw] at hk
      exact absurd hk (by simp)
  · intro hrn m hm
    rcases hcases with ⟨k', hk0, hrw, -⟩ | ⟨-, m', hm0, hcl⟩
    · rw [hrn] at hrw
      exact absurd hrw (by simp)
    · rw [hm] at hcl
      injection hcl with hmm
      subst hmm
      exact calcLayout_of_ncols hm0 hrn hm n

theorem claim_C1_witness :
    RendererLayout.calcLayout ⟨some 3, none, "h"⟩ 7 = Except.ok (3, ceildiv 7 3) :=
  (claim_C1 ⟨some 3, none, "h"⟩ ⟨some 3, none, "h"⟩ 7 (by decide)).1 3 rfl

/-- C2 counterexample: with channelCount 0 and nrows=3 (a valid config with
exactly one axis set), the derived `ncols = ceildiv(0, 3) = 0` is not a
positive integer, refuting the claimed positivity for `channelCount = 0`. -/
theorem claim_C2_counterexample :
    ¬ ∀ L : RendererLayout,
        layoutConstruct ⟨some 3, none, "h"⟩ 0 = Except.ok L → 0 < L.ncols := by
  intro h
  have h0 := h ⟨⟨some 3, none, "h"⟩, 0, 3, 0, "h"⟩ (by decide)
  exact absurd h0 (by decide)

/-- C2 (amended): for every valid configuration, `rows * cols ≥
channelCount` and `arrange` returns exactly channelCount regions; rows and
cols are positive whenever channelCount is positive (at channelCount = 0
the derived axis is 0). -/
theorem claim_C2 (raw : LayoutConfig) (n : Nat) (L : RendererLayout)
    (h : layoutConstruct raw n = Except.ok L) :
    n ≤ L.nrows * L.ncols ∧
    (0 < n → 0 < L.nrows ∧ 0 < L.ncols) ∧
    (∀ {Region : Type} [Inhabited Region] (f : Nat → Nat → Region),
      (L.arrange f).length = n) := by
  cases hpi : raw.postInit with
  | error e =>
    rw [layoutConstruct_eq_error hpi n] at h
    exact absurd h (by simp)
  | ok c =>
    rw [layoutConstruct_eq_init hpi n] at h
    obtain ⟨-, hcases⟩ := postInit_ok_cases hpi
    obtain ⟨nr, nc, hcalc⟩ := calcLayout_ok_of_normalized hpi n
    cases hb : VALID_ORIENTATIONS.contains c.orientation with
    | false =>
      rw [init_error_of_orientation hcalc hb] at h
      exact absurd h (by simp)
    | true =>
      rw [init_ok_of hcalc (List.elem_iff.mp hb)] at h
      have hL : L = ⟨c, n, nr, nc, c.orientation⟩ := by
        injection h with h1
        exact h1.symm
      subst hL
      have main : n ≤ nr * nc ∧ (0 < n → 0 < nr ∧ 0 < nc) := by
        rcases hcases with ⟨k, hk0, hrw, -⟩ | ⟨hrw, m, hm0, hcl⟩
        · rw [calcLayout_of_nrows hk0 hrw n] at hcalc
          injection hcalc with e0
          injection e0 with e1 e2
          rw [← e1, ← e2]
          refine ⟨by rw [mul_comm]; exact le_ceildiv_mul n k hk0, fun hn => ?_⟩
          exact ⟨Nat.pos_of_ne_zero hk0, ceildiv_pos n k (Nat.pos_iff_ne_zero.mp hn) hk0⟩
        · rw [calcLayout_of_ncols hm0 hrw hcl n] at hcalc
          injection hcalc with e0
          injection e0 with e1 e2
          rw [← e1, ← e2]
          refine ⟨le_ceildiv_mul n m hm0, fun hn => ?_⟩
          exact ⟨ceildiv_pos n m (Nat.pos_iff_ne_zero.mp hn) hm0, Nat.pos_of_ne_zero hm0⟩
      refine ⟨main.1, main.2, ?_⟩
      intro Region _ f
      rw [arrange_length, Nat.min_eq_left main.1]

theorem claim_C2_witness :
    (5 : Nat) ≤ 3 * 2 ∧
    ((RendererLayout.mk ⟨none, some 2, "h"⟩ 5 3 2 "h").arrange
      (fun r c => (r, c))).length = 5 :=
  have h := claim_C2 ⟨none, some 2, "h"⟩ 5 ⟨⟨none, some 2, "h"⟩, 5, 3, 2, "h"⟩ (by decide)
  ⟨h.1, h.2.2 (fun r c => (r, c))⟩

/-- C3: `arrange` feeds `region_factory` exactly `nrows * ncols` argument
pairs, one per cell in row-major order (call `i` gets `(i / ncols,
i % ncols)`), and this schedule is the same for any two layouts with the
same grid, regardless of orientation. -/
theorem claim_C3 (L : RendererLayout) :
    L.factoryCalls.length = L.nrows * L.ncols ∧
    (∀ i, i < L.nrows * L.ncols →
      L.factoryCalls.getD i (0, 0) = (i / L.ncols, i % L.ncols)) ∧
    (∀ L' : RendererLayout, L'.nrows = L.nrows → L'.ncols = L.ncols →
      L'.factoryCalls = L.factoryCalls) := by
  refine ⟨factoryCalls_length L, fun i hi => factoryCalls_getD L i hi _, ?_⟩
  intro L' h1 h2
  unfold RendererLayout.factoryCalls
  rw [h1, h2]

theorem claim_C3_witness :
    (RendererLayout.mk ⟨some 2, none, "h"⟩ 5 2 3 "h").factoryCalls.length = 2 * 3 ∧
    (RendererLayout.mk ⟨some 2, none, "h"⟩ 5 2 3 "h").factoryCalls.getD 4 (0, 0) =
      (4 / 3, 4 % 3) :=
  have h := claim_C3 ⟨⟨some 2, none, "h"⟩, 5, 2, 3, "h"⟩
  ⟨h.1, h.2.1 4 (by decide)⟩

/-- C4: with vertical orientation `arrange` assigns channel `i` the region
created for physical cell `(i % nrows, i / nrows)` (column-major), with
horizontal the row-major `(i / ncols, i % ncols)`; the grid dimensions
computed by `_calc_layout` do not depend on the orientation. -/
theorem claim_C4 {Region : Type} [Inhabited Region] (L : RendererLayout)
    (f : Nat → Nat → Region) (d : Region)
    (hr : 0 < L.nrows) (hc : 0 < L.ncols) (hn : L.nplots ≤ L.nrows * L.ncols) :
    (∀ i, i < L.nplots → L.orientation = "v" →
      (L.arrange f).getD i d = f (i % L.nrows) (i / L.nrows)) ∧
    (∀ i, i < L.nplots → L.orientation = "h" →
      (L.arrange f).getD i d = f (i / L.ncols) (i % L.ncols)) ∧
    (∀ (c : LayoutConfig) (n : Nat) (o o' : String),
      RendererLayout.calcLayout { c with orientation := o } n =
        RendererLayout.calcLayout { c with orientation := o' } n) := by
  refine ⟨?_, ?_, ?_⟩
  · intro i hi hv
    exact arrange_getD_v L f hv hr hc i hi hn d
  · intro i hi hh
    have hv : L.orientation ≠ "v" := by rw [hh]; decide
    exact arrange_getD_h L f hv i hi (lt_of_lt_of_le hi hn) d
  · intro c n o o'
    rfl

theorem claim_C4_witness :
    ((RendererLayout.mk ⟨some 2, none, "v"⟩ 5 2 3 "v").arrange
      (fun r c => (r, c))).getD 3 (99, 99) = (3 % 2, 3 / 2) :=
  (claim_C4 ⟨⟨some 2, none, "v"⟩, 5, 2, 3, "v"⟩ (fun r c => (r, c)) (99, 99)
    (by decide) (by decide) (by decide)).1 3 (by decide) rfl

/-- C9: layout construction fails exactly when both axis counts are set
(truthy) or the orientation is not `'h'`/`'v'`; when neither axis is set
(and the orientation is valid) it succeeds with `ncols` defaulted to 1. -/
theorem claim_C9 (raw : LayoutConfig) (n : Nat) :
    ((∃ e, layoutConstruct raw n = Except.error e) ↔
      ((optTruthy raw.nrows = true ∧ optTruthy raw.ncols = true) ∨
        raw.orientation ∉ VALID_ORIENTATIONS)) ∧
    (optTruthy raw.nrows = false → optTruthy raw.ncols = false →
      raw.orientation ∈ VALID_ORIENTATIONS →
      ∃ L, layoutConstruct raw n = Except.ok L ∧ L.cfg.ncols = some 1) := by
  constructor
  · constructor
    · rintro ⟨e, he⟩
      by_cases hb : optTruthy raw.nrows = true ∧ optTruthy raw.ncols = true
      · exact Or.inl hb
      · right
        intro hmem
        obtain ⟨c, hpi⟩ := postInit_ok_of_not_both hb
        obtain ⟨horient, -⟩ := postInit_ok_cases hpi
        obtain ⟨nr, nc, hcalc⟩ := calcLayout_ok_of_normalized hpi n
        have hinit := init_ok_of hcalc (by rw [horient]; exact hmem)
        rw [layoutConstruct_eq_init hpi n, hinit] at he
        exact absurd he (by simp)
    · rintro (⟨hr, hc⟩ | hno)
      · exact ⟨_, layoutConstruct_eq_error (postInit_error_of_both hr hc) n⟩
      · by_cases hb : optTruthy raw.nrows = true ∧ optTruthy raw.ncols = true
        · exact ⟨_, layoutConstruct_eq_error (postInit_error_of_both hb.1 hb.2) n⟩
        · obtain ⟨c, hpi⟩ := postInit_ok_of_not_both hb
          obtain ⟨horient, -⟩ := postInit_ok_cases hpi
          obtain ⟨nr, nc, hcalc⟩ := calcLayout_ok_of_normalized hpi n
          have hcontains : VALID_ORIENTATIONS.contains c.orientation = false := by
            cases hcb : VALID_ORIENTATIONS.contains c.orientation with
            | false => rfl
            | true =>
              rw [horient] at hcb
              exact absurd (List.elem_iff.mp hcb) hno
          refine ⟨"Invalid orientation " ++ c.orientation ++ " not in ['h', 'v']", ?_⟩
          rw [layoutConstruct_eq_init hpi n]
          exact init_error_of_orientation hcalc hcontains
  · intro hr hc hmem
    have hpi : raw.postInit = Except.ok { raw with nrows := none, ncols := some 1 } := by
      unfold LayoutConfig.postInit
      simp [hr, hc, optTruthy_none]
    have hcalc :=
      calcLayout_of_ncols (c := { raw with nrows := none, ncols := some 1 })
        one_ne_zero rfl rfl n
    have hinit := init_ok_of hcalc hmem
    refine ⟨⟨{ raw with nrows := none, ncols := some 1 }, n, ceildiv n 1, 1,
      raw.orientation⟩, ?_, rfl⟩
    rw [layoutConstruct_eq_init hpi n, hinit]

theorem claim_C9_witness :
    ∃ L, layoutConstruct ⟨none, none, "h"⟩ 4 = Except.ok L ∧ L.cfg.ncols = some 1 :=
  (claim_C9 ⟨none, none, "h"⟩ 4).2 (by decide) (by decide) (by decide)

/-- C10: a zero axis count is coerced to unset by `__post_init__`: both
zero defaults to `ncols = 1` without error, and `nrows=0, ncols=k` behaves
exactly as `ncols=k` alone. -/
theorem claim_C10 (o : String) (k : Nat) (hk : k ≠ 0) :
    LayoutConfig.postInit ⟨some 0, some 0, o⟩ = Except.ok ⟨none, some 1, o⟩ ∧
    LayoutConfig.postInit ⟨some 0, some k, o⟩ =
      LayoutConfig.postInit ⟨none, some k, o⟩ ∧
    LayoutConfig.postInit ⟨some 0, some k, o⟩ = Except.ok ⟨none, some k, o⟩ := by
  have hT : optTruthy (some k) = true := by simp [optTruthy, hk]
  refine ⟨?_, ?_, ?_⟩ <;>
    unfold LayoutConfig.postInit <;>
    simp [optTruthy_some_zero, optTruthy_none, hT]

theorem claim_C10_witness :
    LayoutConfig.postInit ⟨some 0, some 0, "h"⟩ = Except.ok ⟨none, some 1, "h"⟩ ∧
    LayoutConfig.postInit ⟨some 0, some 4, "h"⟩ =
      LayoutConfig.postInit ⟨none, some 4, "h"⟩ ∧
    LayoutConfig.postInit ⟨some 0, some 4, "h"⟩ = Except.ok ⟨none, some 4, "h"⟩ :=
  claim_C10 "h" 4 (by decide)

/-- C5: the first `render_frame` (lines not yet created) rejects a data
list whose length differs from `nplots`; otherwise it sets the figure
facecolor, bounds axes `i` to x ∈ [0, len(datas[i]) - 1], y ∈ [-1, 1],
creates one line per channel plotting `datas[i]` with the coalesced color
and configured width, and leaves the renderer initialized. -/
theorem claim_C5 {Color D W : Type} (r : MatplotlibRenderer Color D W)
    (datas : List (List D)) (px : List UInt8)
    (hlc : r.line_colors.length = r.nplots) (hax : r.axes.length = r.nplots) :
    (datas.length ≠ r.nplots →
      r.render_frame datas px = Except.error ("incorrect data to plot: " ++
        toString r.nplots ++ " plots but " ++ toString datas.length ++ " datas")) ∧
    (r.lines = none → datas.length = r.nplots →
      ∃ r', r.render_frame datas px = Except.ok r' ∧
        r'.fig.facecolor = some r.cfg.bg_color ∧
        (∃ ls, r'.lines = some ls ∧ ls.length = r.nplots ∧
          ∀ i (d : Line2D Color D W), i < ls.length →
            ls.getD i d =
              { xdata := List.range (datas.getD i []).length,
                ydata := datas.getD i [],
                color := coalesce (r.line_colors.getD i none) r.cfg.init_line_color,
                linewidth := r.cfg.line_width }) ∧
        r'.axes.length = r.nplots ∧
        (∀ i (a : AxesS), i < r'.axes.length →
          r'.axes.getD i a =
            { xlim := some (0, ((datas.getD i []).length : Int) - 1),
              ylim := some (-1, 1) })) := by
  constructor
  · intro hne
    simp [MatplotlibRenderer.render_frame, Ne.symm hne]
  · intro hnone hlen
    refine ⟨_, render_frame_uninit_eq r datas px hnone hlen, rfl, ⟨_, rfl, ?_, ?_⟩, ?_, ?_⟩
    · simp [List.length_zipWith, hlen, hlc]
    · intro i d hi
      simp [List.length_zipWith, hlen, hlc] at hi
      rw [getD_zipWith _ datas r.line_colors i d [] none (by omega) (by omega)]
    · simp [List.length_zipWith, hlen, hax]
    · intro i a hi
      simp [List.length_zipWith, hlen, hax] at hi
      rw [getD_zipWith _ r.axes datas i a default [] (by omega) (by omega)]

theorem claim_C5_witness :
    MatplotlibRenderer.render_frame exR0 exDatas [] = Except.ok exR1 ∧
    exR1.fig.facecolor = some exR0.cfg.bg_color := by
  obtain ⟨r', hr, hfc, -⟩ :=
    (claim_C5 exR0 exDatas [] (by decide) (by decide)).2 rfl (by decide)
  have h2 : MatplotlibRenderer.render_frame exR0 exDatas [] = Except.ok exR1 := by decide
  rw [h2] at hr
  injection hr with hr
  subst hr
  exact ⟨h2, hfc⟩

/-- C6: every `render_frame` after the first only overwrites the y-data of
the stored lines: same number of artifacts, with x-data, color and line
width of each unchanged (no length assumption relates the new data to the
initializing frame), and axes, facecolor and stored overrides untouched. -/
theorem claim_C6 {Color D W : Type} (r : MatplotlibRenderer Color D W)
    (ls : List (Line2D Color D W)) (datas : List (List D)) (px : List UInt8)
    (hsome : r.lines = some ls) (hlen : datas.length = r.nplots)
    (hls : ls.length = r.nplots) :
    ∃ r', r.render_frame datas px = Except.ok r' ∧
      r'.axes = r.axes ∧
      r'.fig.facecolor = r.fig.facecolor ∧
      r'.line_colors = r.line_colors ∧
      ∃ ls', r'.lines = some ls' ∧ ls'.length = ls.length ∧
        ∀ i (d : Line2D Color D W), i < ls.length →
          ls'.getD i d = { ls.getD i d with ydata := datas.getD i [] } := by
  refine ⟨_, render_frame_init_eq r ls datas px hsome hlen, rfl, rfl, rfl,
    _, rfl, ?_, ?_⟩
  · simp [List.length_zipWith, hls, hlen]
  · intro i d hi
    rw [getD_zipWith _ ls datas i d d [] hi (by omega)]

theorem claim_C6_witness :
    MatplotlibRenderer.render_frame exR1 exDatas2 [] = Except.ok exR2 ∧
    exR2.axes = exR1.axes := by
  obtain ⟨r', hr, hax, -⟩ := claim_C6 exR1
    [⟨[0, 1, 2], [0, 1, 0], 7, none⟩, ⟨[0, 1, 2], [1, -1, 1], 7, none⟩,
     ⟨[0, 1, 2], [0, 0, 0], 7, none⟩] exDatas2 [] rfl (by decide) (by decide)
  have h2 : MatplotlibRenderer.render_frame exR1 exDatas2 [] = Except.ok exR2 := by decide
  rw [h2] at hr
  injection hr with hr
  subst hr
  exact ⟨h2, hax⟩

/-- C7 counterexample: `set_colors` may succeed twice before the first
frame — the overrides are not restricted to being set at most once; the
second successful call overwrites the first. -/
theorem claim_C7_counterexample :
    (MatplotlibRenderer.set_colors exR0 [⟨some 5⟩, ⟨some 5⟩, ⟨some 5⟩]).bind
      (fun r2 => r2.set_colors [⟨some 6⟩, ⟨some 6⟩, ⟨some 6⟩]) =
      Except.ok { exR0 with line_colors := [some 6, some 6, some 6] } := by decide

/-- C7 (amended): `set_colors` rejects an override list whose length
differs from `nplots`, rejects any call once lines exist (after the first
frame), and otherwise only stores the overrides (no other state changes);
it may be called repeatedly before the first frame, each successful call
overwriting the stored list. -/
theorem claim_C7 {Color D W : Type} (r : MatplotlibRenderer Color D W)
    (ccfgs : List (ChannelConfig Color)) :
    (ccfgs.length ≠ r.nplots →
      r.set_colors ccfgs = Except.error ("cannot assign " ++ toString ccfgs.length ++
        " colors to " ++ toString r.nplots ++ " plots")) ∧
    (ccfgs.length = r.nplots → r.lines ≠ none →
      r.set_colors ccfgs =
        Except.error "cannot set line colors after calling render_frame()") ∧
    (ccfgs.length = r.nplots → r.lines = none →
      r.set_colors ccfgs =
        Except.ok { r with line_colors := ccfgs.map (fun c => c.line_color) }) ∧
    (ccfgs.length = r.nplots → r.lines = none →
      ∀ ccfgs2 : List (ChannelConfig Color), ccfgs2.length = r.nplots →
        (r.set_colors ccfgs).bind (fun r2 => r2.set_colors ccfgs2) =
          Except.ok { r with line_colors := ccfgs2.map (fun c => c.line_color) }) := by
  refine ⟨?_, ?_, ?_, ?_⟩
  · intro hne
    simp [MatplotlibRenderer.set_colors, hne]
  · intro hlen hsome
    rw [Option.ne_none_iff_isSome] at hsome
    simp [MatplotlibRenderer.set_colors, hlen, hsome]
  · intro hlen hnone
    simp [MatplotlibRenderer.set_colors, hlen, hnone]
  · intro hlen hnone ccfgs2 hlen2
    have h1 : r.set_colors ccfgs =
        Except.ok { r with line_colors := ccfgs.map (fun c => c.line_color) } := by
      simp [MatplotlibRenderer.set_colors, hlen, hnone]
    rw [h1]
    show MatplotlibRenderer.set_colors _ ccfgs2 = _
    simp [MatplotlibRenderer.set_colors, hlen2, hnone]

theorem claim_C7_witness :
    MatplotlibRenderer.set_colors exR0 [⟨some 5⟩, ⟨some 5⟩, ⟨some 5⟩] =
      Except.ok { exR0 with line_colors := [some 5, some 5, some 5] } :=
  (claim_C7 exR0 [⟨some 5⟩, ⟨some 5⟩, ⟨some 5⟩]).2.2.1 (by decide) rfl

/-- C8: `get_frame` on a freshly constructed renderer (no draw yet) fails
with the backend's missing-renderer error; after a successful
`render_frame` it returns the cached buffer exactly when its length is
`width * height * 3` and fails the assertion otherwise; a non-Agg canvas
is always rejected. -/
theorem claim_C8 {Color D W : Type} (cfg : RendererConfig Color W)
    (lcfg : LayoutConfig) (n : Nat) (r0 : MatplotlibRenderer Color D W)
    (h0 : MatplotlibRenderer.init cfg lcfg n = Except.ok r0) :
    r0.get_frame = Except.error "AttributeError: tostring_rgb requires a prior draw" ∧
    (∀ (datas : List (List D)) (px : List UInt8) (r1 : MatplotlibRenderer Color D W),
      r0.render_frame datas px = Except.ok r1 →
      (px.length = cfg.width * cfg.height * RGB_DEPTH → r1.get_frame = Except.ok px) ∧
      (px.length ≠ cfg.width * cfg.height * RGB_DEPTH →
        r1.get_frame =
          Except.error "AssertionError: len(buffer_rgb) == w * h * RGB_DEPTH")) ∧
    (∀ rx : MatplotlibRenderer Color D W, rx.fig.canvas.kind ≠ CanvasKind.agg →
      rx.get_frame =
        Except.error "oh shit, cannot read data from canvas != FigureCanvasAgg") := by
  obtain ⟨hcfg, hcanvas, -⟩ := mplInit_ok_inv h0
  refine ⟨?_, ?_, ?_⟩
  · simp [MatplotlibRenderer.get_frame, hcanvas, hcfg]
  · intro datas px r1 hr
    obtain ⟨hcanvas1, hcfg1⟩ := render_frame_ok_canvas hr
    rw [hcanvas] at hcanvas1
    constructor
    · intro hpx
      simp [MatplotlibRenderer.get_frame, hcanvas1, hcfg1, hcfg, hpx]
    · intro hpx
      simp [MatplotlibRenderer.get_frame, hcanvas1, hcfg1, hcfg, hpx]
  · intro rx hk
    simp [MatplotlibRenderer.get_frame, hk]

theorem claim_C8_witness :
    MatplotlibRenderer.get_frame c8r0 =
      Except.error "AttributeError: tostring_rgb requires a prior draw" ∧
    MatplotlibRenderer.get_frame c8r1 = Except.ok c8px ∧
    c8px.length = 64 * 32 * 3 := by
  have hlen : c8px.length = 64 * 32 * 3 := by
    unfold c8px
    rw [List.length_replicate]
  have h := claim_C8 c8cfg c8lcfg 1 c8r0 (by decide)
  refine ⟨h.1, ?_, hlen⟩
  exact (h.2.1 [[0, 1, 0]] c8px c8r1 (by rfl)).1 hlen

end Ovgenpy
